import Mathlib

/-!
Shallow embedding of the witness-protocol attestation discovery and
aggregation engine, translated from the TypeScript reference
implementation (record reading/validation module and
discovery-patterns.ts), together with theorems settling the spec claims.

JavaScript-specific behaviour is modelled explicitly:
- optional / possibly-absent fields become Option values, and JS
  truthiness of a string-valued field is captured by the helper truthy
  (absent and the empty string are falsy);
- JS Set insertion (membership by value, first-insertion order kept) is
  modelled by jsSetInsert / jsSetOfList;
- Date.parse on the ISO-8601 timestamp profile used by the protocol
  (YYYY-MM-DDTHH:MM:SSZ, optionally with a .mmm millisecond part, as
  produced by toISOString) is modelled by dateParse, which returns none
  exactly where Date.parse returns NaN on that profile; the numeric
  value is a composite that is strictly monotone in chronological order,
  which is all the engine ever uses (ordering comparisons).
-/

/-- JS truthiness for a possibly-absent string field: absent and the
empty string are falsy. -/
def truthy (o : Option String) : Bool :=
  match o with
  | none => false
  | some s => s ≠ ""

/-- Model of the JS String.prototype.startsWith the source calls for
identifier syntax checks (the platform function itself is not
kernel-reducible, so the model compares character lists). -/
def strStartsWith (s pre : String) : Bool :=
  pre.toList.isPrefixOf s.toList

/-- JS Set.add: append the element unless it is already present. -/
def jsSetInsert (l : List String) (x : String) : List String :=
  if x ∈ l then l else l ++ [x]

/-- Model of building a JS Set from a list: keep the first occurrence of
each element, in insertion order. -/
def jsSetOfList (l : List String) : List String :=
  l.foldl jsSetInsert []

/-- Numeric value of a decimal digit character. -/
def digitVal (c : Char) : Nat := c.toNat - '0'.toNat

/-- Parse two decimal digit characters. -/
def twoDigits (a b : Char) : Option Nat :=
  if a.isDigit && b.isDigit then some (digitVal a * 10 + digitVal b) else none

/-- Parse four decimal digit characters. -/
def fourDigits (a b c d : Char) : Option Nat :=
  if a.isDigit && b.isDigit && c.isDigit && d.isDigit then
    some (((digitVal a * 10 + digitVal b) * 10 + digitVal c) * 10 + digitVal d)
  else none

/-- Combine validated date components into a single Nat that is strictly
monotone in chronological order (the engine only ever compares these
values, so any order-preserving encoding of the epoch time is a faithful
model of getTime). Returns none when a component is out of range. -/
def mkTime (y mo d h mi s ms : Nat) : Option Nat :=
  if 1 ≤ mo && mo ≤ 12 && 1 ≤ d && d ≤ 31 && h ≤ 23 && mi ≤ 59 && s ≤ 59 then
    some ((((((y * 13 + mo) * 32 + d) * 24 + h) * 60 + mi) * 60 + s) * 1000 + ms)
  else none

/-- Model of JS Date.parse restricted to the ISO-8601 UTC profile the
protocol uses for createdAt: YYYY-MM-DDTHH:MM:SSZ with an optional
three-digit fractional-second part. Any other string parses to none
(Date.parse yields NaN). -/
def dateParse (str : String) : Option Nat :=
  match str.toList with
  | [y1, y2, y3, y4, '-', m1, m2, '-', d1, d2, 'T',
     h1, h2, ':', i1, i2, ':', s1, s2, 'Z'] =>
    match fourDigits y1 y2 y3 y4, twoDigits m1 m2, twoDigits d1 d2,
          twoDigits h1 h2, twoDigits i1 i2, twoDigits s1 s2 with
    | some y, some mo, some d, some h, some mi, some s => mkTime y mo d h mi s 0
    | _, _, _, _, _, _ => none
  | [y1, y2, y3, y4, '-', m1, m2, '-', d1, d2, 'T',
     h1, h2, ':', i1, i2, ':', s1, s2, '.', f1, f2, f3, 'Z'] =>
    match fourDigits y1 y2 y3 y4, twoDigits m1 m2, twoDigits d1 d2,
          twoDigits h1 h2, twoDigits i1 i2, twoDigits s1 s2,
          twoDigits f1 f2, (if f3.isDigit then some (digitVal f3) else none) with
    | some y, some mo, some d, some h, some mi, some s, some fhi, some flo =>
      mkTime y mo d h mi s (fhi * 10 + flo)
    | _, _, _, _, _, _, _, _ => none
  | _ => none

-- ============================================================================
-- Data model (type definitions shared by both reference modules)
-- ============================================================================

/-- Sentiment enum of an attestation. -/
inductive Sentiment
  | positive
  | negative
  | neutral
deriving DecidableEq, Repr

/-- Claim category enum of an attestation. -/
inductive ClaimCategory
  | factual
  | subjective
  | predictive
deriving DecidableEq, Repr

/-- One evidence entry of an attestation (content is never inspected by
the engine, only presence and count). -/
structure Evidence where
  kind : String
  uri : Option String := none
  description : Option String := none
deriving DecidableEq, Repr

/-- Temporal bounds of an attestation (never inspected by the engine). -/
structure TemporalBounds where
  observedAt : Option String := none
  validFrom : Option String := none
  validUntil : Option String := none
deriving DecidableEq, Repr

/-- A well-typed at.witness.attestation record value, as used by the
discovery and summary code. The uriTag and witnessTag fields model the
extra properties that social discovery spreads onto fetched values. -/
structure WitnessAttestation where
  subjectDid : String
  claim : String
  claimCategory : Option ClaimCategory := none
  temporalBounds : Option TemporalBounds := none
  sentiment : Option Sentiment := none
  evidence : Option (List Evidence) := none
  contestsRecord : Option String := none
  createdAt : String
  uriTag : Option String := none
  witnessTag : Option String := none
deriving DecidableEq, Repr

/-- A well-typed at.witness.operator record value. -/
structure OperatorRecord where
  operatorDid : String
  operatorName : Option String := none
  constraints : Option (List String) := none
  delegatedPermissions : Option (List String) := none
  effectiveDate : Option String := none
  expirationDate : Option String := none
  supersedes : Option String := none
  createdAt : String
deriving DecidableEq, Repr

-- ============================================================================
-- Validation (operates on raw, untyped records, as the source does)
-- ============================================================================

/-- A raw record as handed to the validators (the source takes any):
every field may be absent, and enum-valued fields hold arbitrary
strings. -/
structure RawRecord where
  typeTag : Option String := none
  operatorDid : Option String := none
  subjectDid : Option String := none
  claim : Option String := none
  createdAt : Option String := none
  claimCategory : Option String := none
  sentiment : Option String := none
  constraints : Option (List String) := none
  evidence : Option (List Evidence) := none
deriving DecidableEq, Repr

/-- Result shape shared by both validators. -/
structure ValidationResult where
  valid : Bool
  errors : List String
  warnings : List String
deriving DecidableEq, Repr

/-- Validate an operator record structure, translated clause by clause
from validateOperatorRecord in the reading/validation module. -/
def validateOperatorRecord (record : RawRecord) : ValidationResult :=
  let errors :=
    (if !truthy record.typeTag || record.typeTag != some "at.witness.operator" then
      ["Missing or invalid $type (expected at.witness.operator)"] else [])
    ++ (if !truthy record.operatorDid then
      ["Missing required field: operatorDid"] else [])
    ++ (if !truthy record.createdAt then
      ["Missing required field: createdAt"] else [])
    ++ (if truthy record.operatorDid
          && !(strStartsWith (record.operatorDid.getD "") "did:") then
      ["operatorDid must be a valid DID"] else [])
    ++ (if truthy record.createdAt
          && (dateParse (record.createdAt.getD "")).isNone then
      ["createdAt must be a valid ISO 8601 timestamp"] else [])
  let warnings :=
    (if record.constraints == none || record.constraints == some [] then
      ["No constraints specified - consider documenting agent limitations"]
      else [])
  { valid := errors.length == 0, errors := errors, warnings := warnings }

/-- Validate a witness attestation structure, translated clause by
clause from validateAttestation in the reading/validation module. Note
the source performs no timestamp-parse check on createdAt here. -/
def validateAttestation (record : RawRecord) : ValidationResult :=
  let validCategories := ["factual", "subjective", "predictive"]
  let validSentiments := ["positive", "negative", "neutral"]
  let errors :=
    (if !truthy record.typeTag || record.typeTag != some "at.witness.attestation" then
      ["Missing or invalid $type (expected at.witness.attestation)"] else [])
    ++ (if !truthy record.subjectDid then
      ["Missing required field: subjectDid"] else [])
    ++ (if !truthy record.claim then
      ["Missing required field: claim"] else [])
    ++ (if !truthy record.createdAt then
      ["Missing required field: createdAt"] else [])
    ++ (if truthy record.subjectDid
          && !(strStartsWith (record.subjectDid.getD "") "did:") then
      ["subjectDid must be a valid DID"] else [])
    ++ (if truthy record.claimCategory
          && !(validCategories.contains (record.claimCategory.getD "")) then
      ["claimCategory must be one of: factual, subjective, predictive"] else [])
    ++ (if truthy record.sentiment
          && !(validSentiments.contains (record.sentiment.getD "")) then
      ["sentiment must be one of: positive, negative, neutral"] else [])
  let warnings :=
    (if !truthy record.claimCategory then
      ["No claimCategory specified - helps with signal weighting"] else [])
    ++ (if record.evidence == none || record.evidence == some [] then
      ["No evidence provided - attestation has lower signal value"] else [])
  { valid := errors.length == 0, errors := errors, warnings := warnings }

-- ============================================================================
-- Supersession resolution (getCurrentOperator)
-- ============================================================================

/-- The getTime value of a record's createdAt, as used by the sort
comparator in getCurrentOperator. An unparseable timestamp yields NaN in
JS, making the sort order unspecified there; the model maps it to 0 (the
claims about ordering only ever apply to parseable timestamps). -/
def recordTime (r : OperatorRecord) : Nat :=
  (dateParse r.createdAt).getD 0

/-- The descending-getTime comparator of getCurrentOperator's sort:
a precedes b when b's time is at most a's. -/
def tipCmp (a b : OperatorRecord) : Bool :=
  recordTime b ≤ recordTime a

/-- Keys of the supersededBy map built by getCurrentOperator: every
string that appears as some record's supersedes value (only the map's
keys are ever consulted, so the model keeps just the key set). -/
def supersededKeys (records : List OperatorRecord) : List String :=
  records.foldl
    (fun m r =>
      match r.supersedes with
      | some s => jsSetInsert m s
      | none => m)
    []

/-- Resolve the current operator record, translated from
getCurrentOperator: records whose createdAt is not a supersedes target
(the source tracks references by createdAt as a stand-in, per its own
comment) are sorted by descending getTime and the first is returned;
when none remain, the first record of the input is returned. The
repository fetch preceding this logic is the Repository Reader boundary;
this is the resolver over an already-fetched record set. -/
def getCurrentOperator (records : List OperatorRecord) : Option OperatorRecord :=
  if records.length = 0 then
    none
  else
    let supersededBy := supersededKeys records
    let unsuperseded :=
      (records.filter (fun r => !(supersededBy.contains r.createdAt))).mergeSort
        tipCmp
    match unsuperseded.head? with
    | some r => some r
    | none => records.head?

-- ============================================================================
-- Summary aggregation (summarizeAttestations)
-- ============================================================================

/-- Per-category counters of a summary. -/
structure ByCategory where
  factual : Nat
  subjective : Nat
  predictive : Nat
  unknown : Nat
deriving DecidableEq, Repr

/-- The summary shape returned by summarizeAttestations. -/
structure AttestationSummary where
  subjectDid : String
  totalAttestations : Nat
  positiveCount : Nat
  negativeCount : Nat
  neutralCount : Nat
  byCategory : ByCategory
  uniqueWitnesses : Nat
  oldestAttestation : Option String
  newestAttestation : Option String
deriving DecidableEq, Repr

/-- Aggregate attestations about one subject, translated field by field
from summarizeAttestations. Note the witnesses set is built from the
subjectDid of every input attestation, relevant or not, exactly as the
source does (its own comment notes a real implementation would need the
witness DID). -/
def summarizeAttestations (attestations : List WitnessAttestation)
    (subjectDid : String) : AttestationSummary :=
  let relevant := attestations.filter (fun a => a.subjectDid == subjectDid)
  let witnesses := jsSetOfList (attestations.map (fun a => a.subjectDid))
  let timestamps :=
    ((relevant.map (fun a => a.createdAt)).filter (fun t => t != "")).mergeSort
      (fun a b => a ≤ b)
  { subjectDid := subjectDid
    totalAttestations := relevant.length
    positiveCount :=
      (relevant.filter (fun a => a.sentiment == some Sentiment.positive)).length
    negativeCount :=
      (relevant.filter (fun a => a.sentiment == some Sentiment.negative)).length
    neutralCount :=
      (relevant.filter (fun a => a.sentiment == some Sentiment.neutral)).length
    byCategory :=
      { factual :=
          (relevant.filter
            (fun a => a.claimCategory == some ClaimCategory.factual)).length
        subjective :=
          (relevant.filter
            (fun a => a.claimCategory == some ClaimCategory.subjective)).length
        predictive :=
          (relevant.filter
            (fun a => a.claimCategory == some ClaimCategory.predictive)).length
        unknown :=
          (relevant.filter (fun a => a.claimCategory == none)).length }
    uniqueWitnesses := witnesses.length
    oldestAttestation := timestamps.head?
    newestAttestation := timestamps.getLast? }

-- ============================================================================
-- Discovery (discovery-patterns.ts)
-- ============================================================================

/-- A record envelope as returned by listRecords for the attestation
collection: the record uri plus its value. -/
structure RecordEnvelope where
  uri : String
  value : WitnessAttestation
deriving DecidableEq, Repr

/-- A registry record value: an optional list of witness identifiers. -/
structure RegistryRecord where
  witnesses : Option (List String) := none
deriving DecidableEq, Repr

/-- A feed post record, reduced to the one field the social-graph
heuristic reads: the uri of the post's reply parent, when present. -/
structure PostRecord where
  replyParentUri : Option String := none
deriving DecidableEq, Repr

/-- One attestation as reported by an indexer. -/
structure IndexerAttestation where
  uri : String
  witnessDid : String
  subjectDid : String
  claim : String
  sentiment : Option String := none
  createdAt : String
deriving DecidableEq, Repr

/-- An indexer query response. -/
structure IndexerResponse where
  attestations : List IndexerAttestation
  cursor : Option String := none
deriving DecidableEq, Repr

/-- An indexer endpoint configuration. -/
structure WitnessIndexer where
  baseUrl : String
deriving DecidableEq, Repr

/-- The remote-fetch boundary (Repository Reader, Registry Reader and
Indexer Query collaborators): each fetch either succeeds with records or
fails with a transport error. The engine is a pure computation over this
boundary. -/
structure Env where
  listAttestationRecords : String → Except String (List RecordEnvelope)
  listRegistryRecords : String → Except String (List RegistryRecord)
  listPostRecords : String → Except String (List PostRecord)
  queryIndexer : String → String → Except String IndexerResponse

/-- Social discovery through known relationships, translated from
discoverThroughSocialGraph: each witness repository is fetched
independently; a failed fetch is caught, logged to the console only, and
the loop continues with the attestations gathered so far. -/
def discoverThroughSocialGraph (env : Env) (targetAgentDid : String)
    (knownWitnesses : List String) : List WitnessAttestation :=
  knownWitnesses.foldl
    (fun attestations witnessDid =>
      match env.listAttestationRecords witnessDid with
      | Except.ok response =>
        let relevant :=
          (response.map (fun r =>
            { r.value with uriTag := some r.uri, witnessTag := some witnessDid })).filter
            (fun a => a.subjectDid == targetAgentDid)
        attestations ++ relevant
      | Except.error _ => attestations)
    []

/-- Index 2 of the '/'-separated parts of a uri, as in uri.split('/')[2]. -/
def extractParentDid (uri : String) : Option String :=
  (uri.splitOn "/")[2]?

/-- The post loop of findPotentialWitnesses. When the reply-parent uri
has fewer than three '/'-separated parts the source calls startsWith on
undefined, throwing a TypeError that the surrounding catch swallows, so
the witnesses collected up to that point are returned. -/
def findPotentialWitnessesLoop : List PostRecord → List String → List String
  | [], witnesses => witnesses
  | post :: rest, witnesses =>
    match post.replyParentUri with
    | none => findPotentialWitnessesLoop rest witnesses
    | some uri =>
      if uri == "" then
        findPotentialWitnessesLoop rest witnesses
      else
        match extractParentDid uri with
        | none => witnesses
        | some parentDid =>
          findPotentialWitnessesLoop rest
            (if strStartsWith parentDid "did:" then jsSetInsert witnesses parentDid
             else witnesses)

/-- Heuristic witness discovery from the subject's reply targets,
translated from findPotentialWitnesses. All failures are caught
internally, so this never propagates an error to the caller. -/
def findPotentialWitnesses (env : Env) (targetAgentDid : String) : List String :=
  match env.listPostRecords targetAgentDid with
  | Except.error _ => []
  | Except.ok posts => findPotentialWitnessesLoop posts []

/-- Registry-based discovery, translated from discoverThroughRegistry:
fetch the registry's records, union their witness lists into a set, then
fetch each registered witness, skipping unavailable ones. A registry
fetch failure is caught internally and yields the empty list. -/
def discoverThroughRegistry (env : Env) (registryDid targetAgentDid : String) :
    List WitnessAttestation :=
  match env.listRegistryRecords registryDid with
  | Except.error _ => []
  | Except.ok registryRecords =>
    let witnesses :=
      registryRecords.foldl
        (fun ws record =>
          match record.witnesses with
          | some list => list.foldl jsSetInsert ws
          | none => ws)
        []
    witnesses.foldl
      (fun attestations witnessDid =>
        match env.listAttestationRecords witnessDid with
        | Except.ok response =>
          attestations ++
            (response.map (fun r => r.value)).filter
              (fun a => a.subjectDid == targetAgentDid)
        | Except.error _ => attestations)
      []

/-- Indexer query, translated from discoverThroughIndexer: a single
external call that propagates failure to the caller (the source throws
on a non-ok response). Query-string assembly is transport detail below
the modelled boundary. -/
def discoverThroughIndexer (env : Env) (indexer : WitnessIndexer)
    (targetAgentDid : String) : Except String IndexerResponse :=
  env.queryIndexer indexer.baseUrl targetAgentDid

/-- A discovery channel, indexing the per-channel counters. -/
inductive Channel
  | social
  | registry
  | indexer
deriving DecidableEq, Repr

/-- Per-channel contribution counters. -/
structure Sources where
  social : Nat := 0
  registry : Nat := 0
  indexer : Nat := 0
deriving DecidableEq, Repr

/-- Increment the counter of one channel. -/
def bumpSource (s : Sources) : Channel → Sources
  | Channel.social => { s with social := s.social + 1 }
  | Channel.registry => { s with registry := s.registry + 1 }
  | Channel.indexer => { s with indexer := s.indexer + 1 }

/-- The sum of the three per-channel counters. -/
def sourceSum (s : Sources) : Nat :=
  s.social + s.registry + s.indexer

/-- The aggregate output of a discovery invocation. -/
structure DiscoveryResult where
  attestations : List WitnessAttestation
  sources : Sources
  warnings : List String
deriving DecidableEq, Repr

/-- The mutable locals of discoverAttestations, threaded explicitly:
collected attestations, per-channel counters, warnings, and the seenUris
set of canonical keys. -/
structure DiscoverState where
  attestations : List WitnessAttestation
  sources : Sources
  warnings : List String
  seenUris : List String
deriving DecidableEq, Repr

/-- The canonical deduplication key of an attestation, exactly the
template string the source builds from subjectDid, claim and createdAt. -/
def canonicalKey (a : WitnessAttestation) : String :=
  a.subjectDid ++ ":" ++ a.claim ++ ":" ++ a.createdAt

/-- The addAttestations helper closed over by discoverAttestations: add
each new attestation unless deduplication is on and its canonical key
was already seen, crediting the contributing channel's counter. -/
def addAttestations (deduplicate : Bool) (st : DiscoverState)
    (newAttestations : List WitnessAttestation) (source : Channel) : DiscoverState :=
  newAttestations.foldl
    (fun st a =>
      let key := canonicalKey a
      if !deduplicate || !(st.seenUris.contains key) then
        { st with
          seenUris := jsSetInsert st.seenUris key
          attestations := st.attestations ++ [a]
          sources := bumpSource st.sources source }
      else st)
    st

/-- The initial state of a discovery invocation: empty collections and
zeroed counters. -/
def initialDiscoverState : DiscoverState :=
  { attestations := []
    sources := { social := 0, registry := 0, indexer := 0 }
    warnings := []
    seenUris := [] }

/-- One registry iteration of the orchestrator loop. -/
def registryStep (env : Env) (targetAgentDid : String) (deduplicate : Bool)
    (st : DiscoverState) (registryDid : String) : DiscoverState :=
  addAttestations deduplicate st
    (discoverThroughRegistry env registryDid targetAgentDid) Channel.registry

/-- One indexer iteration of the orchestrator loop: a successful query
only increases the indexer counter (the source leaves the conversion of
indexer records into attestation entries unimplemented); a failed query
appends one warning naming the indexer. -/
def indexerStep (env : Env) (targetAgentDid : String)
    (st : DiscoverState) (indexer : WitnessIndexer) : DiscoverState :=
  match discoverThroughIndexer env indexer targetAgentDid with
  | Except.ok response =>
    { st with sources :=
        { st.sources with
          indexer := st.sources.indexer + response.attestations.length } }
  | Except.error _ =>
    { st with warnings :=
        st.warnings ++ ["Indexer " ++ indexer.baseUrl ++ " unavailable"] }

/-- Options recognized by discoverAttestations. The two boolean options
are absent-or-false versus truthy in the source; Bool with default false
captures that. -/
structure DiscoveryOptions where
  knownWitnesses : Option (List String) := none
  discoverWitnessesSocially : Bool := false
  registries : Option (List String) := none
  indexers : Option (List WitnessIndexer) := none
  deduplicate : Bool := false

/-- Unified discovery, translated from discoverAttestations. Two catch
blocks of the source are unreachable and so have no counterpart here:
findPotentialWitnesses and discoverThroughRegistry both swallow their
own failures and return normally, so the warnings those catches would
push can never be produced. Indexer responses only increase the indexer
counter; the source never converts them into attestation entries (its
comment marks that as simplified away). -/
def discoverAttestations (env : Env) (targetAgentDid : String)
    (options : DiscoveryOptions) : DiscoveryResult :=
  let witnesses := options.knownWitnesses.getD []
  let witnesses :=
    if options.discoverWitnessesSocially then
      jsSetOfList (witnesses ++ findPotentialWitnesses env targetAgentDid)
    else witnesses
  let st1 :=
    if witnesses.length > 0 then
      addAttestations options.deduplicate initialDiscoverState
        (discoverThroughSocialGraph env targetAgentDid witnesses) Channel.social
    else initialDiscoverState
  let st2 :=
    (options.registries.getD []).foldl
      (registryStep env targetAgentDid options.deduplicate) st1
  let st3 :=
    (options.indexers.getD []).foldl (indexerStep env targetAgentDid) st2
  { attestations := st3.attestations
    sources := st3.sources
    warnings := st3.warnings }

-- ============================================================================
-- Helper lemmas
-- ============================================================================

lemma truthy_none : truthy none = false := rfl

lemma truthy_some (s : String) : truthy (some s) = decide (s ≠ "") := rfl

lemma length_beq_zero_of_mem {l : List String} {x : String} (h : x ∈ l) :
    (l.length == 0) = false := by
  cases l with
  | nil => cases h
  | cons a t => simp

lemma validateAttestation_valid_eq (rec : RawRecord) :
    (validateAttestation rec).valid =
      ((validateAttestation rec).errors.length == 0) := rfl

lemma validateOperatorRecord_valid_eq (rec : RawRecord) :
    (validateOperatorRecord rec).valid =
      ((validateOperatorRecord rec).errors.length == 0) := rfl

-- ============================================================================
-- Concrete records used by witnesses and counterexamples
-- ============================================================================

/-- An attestation raw record that is complete and well-formed except
that its createdAt does not parse as a timestamp. -/
def rawBadTimestampAttestation : RawRecord :=
  { typeTag := some "at.witness.attestation"
    subjectDid := some "did:plc:subject-s"
    claim := some "helpful assistant"
    createdAt := some "not-a-timestamp" }

/-- An attestation raw record with no createdAt field. -/
def rawMissingCreatedAt : RawRecord :=
  { typeTag := some "at.witness.attestation"
    subjectDid := some "did:plc:subject-s"
    claim := some "helpful assistant" }

/-- An attestation raw record whose sentiment is the out-of-enum value
angry. -/
def rawAngrySentiment : RawRecord :=
  { typeTag := some "at.witness.attestation"
    subjectDid := some "did:plc:subject-s"
    claim := some "helpful assistant"
    createdAt := some "2026-01-10T10:00:00Z"
    sentiment := some "angry" }

/-- An otherwise-valid attestation raw record carrying no evidence. -/
def rawNoEvidence : RawRecord :=
  { typeTag := some "at.witness.attestation"
    subjectDid := some "did:plc:subject-s"
    claim := some "helpful assistant"
    createdAt := some "2026-01-10T10:00:00Z"
    claimCategory := some "subjective"
    sentiment := some "positive" }

/-- An operator raw record whose createdAt does not parse. -/
def rawBadTimestampOperator : RawRecord :=
  { typeTag := some "at.witness.operator"
    operatorDid := some "did:plc:operator"
    createdAt := some "not-a-timestamp" }

-- ============================================================================
-- C6: unparseable createdAt and the two validators
-- ============================================================================

/-- C6 counterexample: the claim says a record of either kind whose
createdAt is present but unparseable is always rejected; but the
attestation validator performs no timestamp-parse check, so an
attestation whose createdAt is the unparseable string not-a-timestamp is
accepted as valid. -/
theorem c6_counterexample :
    dateParse "not-a-timestamp" = none ∧
    (validateAttestation rawBadTimestampAttestation).valid = true := by
  constructor
  · rfl
  · decide

/-- C6 amended: an operator record whose createdAt is present but fails
to parse is rejected (if the string is empty it is caught as a missing
required field, otherwise by the timestamp check); the attestation
validator, by contrast, never inspects the content of a present
createdAt, so its verdict is unchanged under replacing one non-empty
createdAt string by any other, parseable or not. -/
theorem c6_amended :
    (∀ (rec : RawRecord) (s : String), rec.createdAt = some s →
      dateParse s = none → (validateOperatorRecord rec).valid = false) ∧
    (∀ (rec : RawRecord) (s₁ s₂ : String), s₁ ≠ "" → s₂ ≠ "" →
      validateAttestation { rec with createdAt := some s₁ } =
        validateAttestation { rec with createdAt := some s₂ }) := by
  constructor
  · intro rec s hs hparse
    by_cases hempty : s = ""
    · have hmem : "Missing required field: createdAt" ∈
          (validateOperatorRecord rec).errors := by
        simp [validateOperatorRecord, hs, hempty, truthy]
      rw [validateOperatorRecord_valid_eq, length_beq_zero_of_mem hmem]
    · have hmem : "createdAt must be a valid ISO 8601 timestamp" ∈
          (validateOperatorRecord rec).errors := by
        simp [validateOperatorRecord, hs, hempty, truthy, hparse]
      rw [validateOperatorRecord_valid_eq, length_beq_zero_of_mem hmem]
  · intro rec s₁ s₂ h₁ h₂
    simp [validateAttestation, truthy, h₁, h₂]

/-- Witness for the amended C6 at concrete inputs. -/
theorem c6_amended_witness :
    (validateOperatorRecord rawBadTimestampOperator).valid = false ∧
    validateAttestation
        { rawMissingCreatedAt with createdAt := some "not-a-timestamp" } =
      validateAttestation
        { rawMissingCreatedAt with createdAt := some "2026-01-10T10:00:00Z" } :=
  ⟨c6_amended.1 rawBadTimestampOperator "not-a-timestamp" rfl (by rfl),
   c6_amended.2 rawMissingCreatedAt "not-a-timestamp" "2026-01-10T10:00:00Z"
     (by decide) (by decide)⟩

-- ============================================================================
-- C7: attestation validation correctness
-- ============================================================================

/-- C7: an attestation with no createdAt is rejected with an error
naming the missing field; a sentiment outside the declared enum (angry)
is rejected; an otherwise-valid attestation with no evidence is accepted
and carries at least one warning. -/
theorem c7_attestation_validation :
    (∀ rec : RawRecord, rec.createdAt = none →
      (validateAttestation rec).valid = false ∧
        "Missing required field: createdAt" ∈ (validateAttestation rec).errors) ∧
    (∀ rec : RawRecord, rec.sentiment = some "angry" →
      (validateAttestation rec).valid = false) ∧
    (∀ rec : RawRecord, (validateAttestation rec).valid = true →
      rec.evidence = none ∨ rec.evidence = some [] →
      (validateAttestation rec).warnings ≠ []) := by
  refine ⟨?_, ?_, ?_⟩
  · intro rec h
    have hmem : "Missing required field: createdAt" ∈
        (validateAttestation rec).errors := by
      simp [validateAttestation, h, truthy]
    exact ⟨by rw [validateAttestation_valid_eq, length_beq_zero_of_mem hmem], hmem⟩
  · intro rec h
    have hmem : "sentiment must be one of: positive, negative, neutral" ∈
        (validateAttestation rec).errors := by
      simp [validateAttestation, h, truthy]
    rw [validateAttestation_valid_eq, length_beq_zero_of_mem hmem]
  · intro rec _ hev
    have hmem : "No evidence provided - attestation has lower signal value" ∈
        (validateAttestation rec).warnings := by
      rcases hev with h | h <;> simp [validateAttestation, h]
    exact List.ne_nil_of_mem hmem

/-- Witness for C7 at concrete inputs. -/
theorem c7_attestation_validation_witness :
    ((validateAttestation rawMissingCreatedAt).valid = false ∧
      "Missing required field: createdAt" ∈
        (validateAttestation rawMissingCreatedAt).errors) ∧
    (validateAttestation rawAngrySentiment).valid = false ∧
    (validateAttestation rawNoEvidence).warnings ≠ [] :=
  ⟨c7_attestation_validation.1 rawMissingCreatedAt rfl,
   c7_attestation_validation.2.1 rawAngrySentiment rfl,
   c7_attestation_validation.2.2 rawNoEvidence (by decide) (Or.inl rfl)⟩

-- ============================================================================
-- C8: summary totals
-- ============================================================================

lemma sentiment_counts_le (l : List WitnessAttestation) :
    (l.filter (fun a => a.sentiment == some Sentiment.positive)).length +
      (l.filter (fun a => a.sentiment == some Sentiment.negative)).length +
      (l.filter (fun a => a.sentiment == some Sentiment.neutral)).length ≤
      l.length := by
  induction l with
  | nil => simp
  | cons a t ih =>
    rcases h : a.sentiment with _ | s
    · simp [List.filter_cons, h]
      omega
    · cases s <;>
        · simp [List.filter_cons, h]
          omega

lemma category_counts_eq (l : List WitnessAttestation) :
    (l.filter (fun a => a.claimCategory == some ClaimCategory.factual)).length +
      (l.filter (fun a => a.claimCategory == some ClaimCategory.subjective)).length +
      (l.filter (fun a => a.claimCategory == some ClaimCategory.predictive)).length +
      (l.filter (fun a => a.claimCategory == none)).length =
      l.length := by
  induction l with
  | nil => simp
  | cons a t ih =>
    rcases h : a.claimCategory with _ | c
    · simp [List.filter_cons, h]
      omega
    · cases c <;>
        · simp [List.filter_cons, h]
          omega

/-- C8: in every summary, the three sentiment counts sum to at most the
total (sentiment is optional), and the four category counts sum to
exactly the total. -/
theorem c8_summary_totals (attestations : List WitnessAttestation)
    (subjectDid : String) :
    (summarizeAttestations attestations subjectDid).positiveCount +
        (summarizeAttestations attestations subjectDid).negativeCount +
        (summarizeAttestations attestations subjectDid).neutralCount ≤
      (summarizeAttestations attestations subjectDid).totalAttestations ∧
    (summarizeAttestations attestations subjectDid).byCategory.factual +
        (summarizeAttestations attestations subjectDid).byCategory.subjective +
        (summarizeAttestations attestations subjectDid).byCategory.predictive +
        (summarizeAttestations attestations subjectDid).byCategory.unknown =
      (summarizeAttestations attestations subjectDid).totalAttestations := by
  unfold summarizeAttestations
  exact ⟨sentiment_counts_le _, category_counts_eq _⟩

-- ============================================================================
-- C9: uniqueWitnesses does not count witnesses
-- ============================================================================

/-- A positive attestation about subject S. -/
def attS : WitnessAttestation :=
  { subjectDid := "did:plc:subject-s"
    claim := "helpful"
    sentiment := some Sentiment.positive
    createdAt := "2026-01-10T10:00:00Z" }

/-- An attestation about a different subject T. -/
def attT : WitnessAttestation :=
  { subjectDid := "did:plc:subject-t"
    claim := "other"
    createdAt := "2026-01-11T10:00:00Z" }

/-- C9 failing input, evaluated: on the set containing one attestation
about subject S and one about subject T, the summary for S reports
uniqueWitnesses = 2 even though only a single attestation about S is in
the set, so at most one distinct witness can have produced it. The code
counts distinct subject identifiers of the whole input (its own comment
says a real implementation would need the witness identifier), not
distinct witnesses. -/
theorem c9_unique_witnesses_failing :
    (summarizeAttestations [attS, attT] "did:plc:subject-s").uniqueWitnesses = 2 ∧
    (summarizeAttestations [attS, attT] "did:plc:subject-s").totalAttestations = 1 := by
  constructor <;> rfl

-- ============================================================================
-- Supersession resolver: spec-level candidate set and bridge lemmas
-- ============================================================================

/-- The reference of a record as the resolver construes it: the source
uses createdAt as the stand-in for a record reference (its own comment
notes the uri would be needed to track this properly). -/
def recordRef (r : OperatorRecord) : String :=
  r.createdAt

/-- Every reference that appears as a supersedes target in the set. -/
def supersedesTargets (records : List OperatorRecord) : List String :=
  records.filterMap (fun r => r.supersedes)

/-- The candidate tip set: records whose own reference is not a
supersedes target of any record in the set. -/
def candidates (records : List OperatorRecord) : List OperatorRecord :=
  records.filter (fun r => decide (recordRef r ∉ supersedesTargets records))

lemma mem_jsSetInsert {l : List String} {x y : String} :
    y ∈ jsSetInsert l x ↔ y ∈ l ∨ y = x := by
  by_cases h : x ∈ l
  · simp only [jsSetInsert, if_pos h]
    constructor
    · exact Or.inl
    · rintro (hy | rfl)
      · exact hy
      · exact h
  · simp [jsSetInsert, if_neg h]

lemma mem_supersededKeys_aux (records : List OperatorRecord)
    (init : List String) (x : String) :
    x ∈ records.foldl
        (fun m r =>
          match r.supersedes with
          | some s => jsSetInsert m s
          | none => m)
        init ↔
      x ∈ init ∨ x ∈ supersedesTargets records := by
  induction records generalizing init with
  | nil => simp [supersedesTargets]
  | cons r t ih =>
    simp only [List.foldl_cons]
    rcases h : r.supersedes with _ | s
    · rw [ih]
      simp [supersedesTargets, List.filterMap_cons, h]
    · rw [ih]
      simp only [mem_jsSetInsert]
      simp only [supersedesTargets, List.filterMap_cons, h, List.mem_cons]
      tauto

lemma mem_supersededKeys (records : List OperatorRecord) (x : String) :
    x ∈ supersededKeys records ↔ x ∈ supersedesTargets records := by
  have h := mem_supersededKeys_aux records [] x
  simp only [List.not_mem_nil, false_or] at h
  exact h

lemma contains_eq_decide_mem (l : List String) (x : String) :
    l.contains x = decide (x ∈ l) := by
  by_cases h : x ∈ l <;> simp [h]

lemma unsuperseded_eq_candidates (records : List OperatorRecord) :
    records.filter (fun r => !((supersededKeys records).contains r.createdAt)) =
      candidates records := by
  unfold candidates
  apply List.filter_congr
  intro r _
  rw [contains_eq_decide_mem]
  by_cases hx : r.createdAt ∈ supersededKeys records
  · have hx' := (mem_supersededKeys records r.createdAt).mp hx
    simp [hx, recordRef, hx']
  · have hx' : r.createdAt ∉ supersedesTargets records :=
      fun hc => hx ((mem_supersededKeys records r.createdAt).mpr hc)
    simp [hx, recordRef, hx']

lemma getCurrentOperator_cons (a : OperatorRecord) (t : List OperatorRecord) :
    getCurrentOperator (a :: t) =
      match ((candidates (a :: t)).mergeSort tipCmp).head? with
      | some r => some r
      | none => some a := by
  unfold getCurrentOperator
  rw [if_neg (by simp)]
  simp only [unsuperseded_eq_candidates, List.head?_cons]

lemma tipCmp_trans (a b c : OperatorRecord) :
    tipCmp a b → tipCmp b c → tipCmp a c := by
  simp only [tipCmp, decide_eq_true_eq]
  omega

lemma tipCmp_total (a b : OperatorRecord) :
    tipCmp a b || tipCmp b a := by
  simp only [tipCmp, Bool.or_eq_true, decide_eq_true_eq]
  exact Nat.le_total _ _

-- ============================================================================
-- Concrete operator records
-- ============================================================================

/-- A lone operator record with no supersedes link. -/
def opSolo : OperatorRecord :=
  { operatorDid := "did:plc:operator", createdAt := "2026-01-01T00:00:00Z" }

/-- First half of a supersession cycle (earlier createdAt). -/
def opA : OperatorRecord :=
  { operatorDid := "did:plc:op-a"
    createdAt := "2026-01-01T00:00:00Z"
    supersedes := some "2026-01-02T00:00:00Z" }

/-- Second half of a supersession cycle (later createdAt). -/
def opB : OperatorRecord :=
  { operatorDid := "did:plc:op-b"
    createdAt := "2026-01-02T00:00:00Z"
    supersedes := some "2026-01-01T00:00:00Z" }

/-- A record superseded by opD. -/
def opC : OperatorRecord :=
  { operatorDid := "did:plc:op-c", createdAt := "2026-01-01T00:00:00Z" }

/-- The record superseding opC. -/
def opD : OperatorRecord :=
  { operatorDid := "did:plc:op-d"
    createdAt := "2026-01-02T00:00:00Z"
    supersedes := some "2026-01-01T00:00:00Z" }

-- ============================================================================
-- C3: candidate tip set and latest-createdAt selection
-- ============================================================================

/-- C3: the resolver's internal unsuperseded filter computes exactly the
candidate tip set (records whose own reference is not a supersedes
target); when that set is non-empty the resolver returns a candidate —
never a superseded record — and the returned candidate has the latest
createdAt among all candidates. -/
theorem c3_supersession_tip (records : List OperatorRecord)
    (hparse : ∀ s ∈ records, (dateParse s.createdAt).isSome = true)
    (hcand : candidates records ≠ []) :
    records.filter (fun r => !((supersededKeys records).contains r.createdAt)) =
        candidates records ∧
    ∃ r, getCurrentOperator records = some r ∧ r ∈ candidates records ∧
      (∀ s ∈ records, recordRef s ∈ supersedesTargets records →
        getCurrentOperator records ≠ some s) ∧
      (∀ s ∈ candidates records, recordTime s ≤ recordTime r) := by
  have hne : records ≠ [] := by
    intro h
    apply hcand
    rw [h]
    rfl
  obtain ⟨a, t, rfl⟩ : ∃ a t, records = a :: t := by
    cases records with
    | nil => exact absurd rfl hne
    | cons a t => exact ⟨a, t, rfl⟩
  refine ⟨unsuperseded_eq_candidates _, ?_⟩
  rw [getCurrentOperator_cons]
  have hperm : List.Perm ((candidates (a :: t)).mergeSort tipCmp)
      (candidates (a :: t)) :=
    List.mergeSort_perm _ _
  have hsorted : ((candidates (a :: t)).mergeSort tipCmp).Pairwise
      (fun x y => tipCmp x y = true) :=
    List.sorted_mergeSort (fun x y z => tipCmp_trans x y z)
      (fun x y => tipCmp_total x y) _
  cases hlc : (candidates (a :: t)).mergeSort tipCmp with
  | nil =>
    rw [hlc] at hperm
    exact absurd hperm.symm.eq_nil hcand
  | cons r rest =>
    have hrmem : r ∈ candidates (a :: t) := by
      apply List.mem_mergeSort.mp
      rw [hlc]
      exact List.mem_cons_self r rest
    refine ⟨r, rfl, hrmem, ?_, ?_⟩
    · intro s _ hsup heq
      have hrs : r = s := by
        simpa using heq
      have : recordRef s ∉ supersedesTargets (a :: t) := by
        have := List.of_mem_filter (hrs ▸ hrmem)
        simpa using this
      exact this hsup
    · intro s hsc
      have hsl : s ∈ (candidates (a :: t)).mergeSort tipCmp :=
        List.mem_mergeSort.mpr hsc
      rw [hlc] at hsl
      rcases List.mem_cons.mp hsl with rfl | hrest
      · exact Nat.le_refl _
      · rw [hlc] at hsorted
        have := (List.pairwise_cons.mp hsorted).1 s hrest
        simpa [tipCmp] using this

/-- Witness for C3 on the two-record chain where opD supersedes opC. -/
theorem c3_supersession_tip_witness :
    [opC, opD].filter
        (fun r => !((supersededKeys [opC, opD]).contains r.createdAt)) =
        candidates [opC, opD] ∧
    ∃ r, getCurrentOperator [opC, opD] = some r ∧ r ∈ candidates [opC, opD] ∧
      (∀ s ∈ [opC, opD], recordRef s ∈ supersedesTargets [opC, opD] →
        getCurrentOperator [opC, opD] ≠ some s) ∧
      (∀ s ∈ candidates [opC, opD], recordTime s ≤ recordTime r) :=
  c3_supersession_tip [opC, opD] (by decide) (by decide)

-- ============================================================================
-- C4: empty candidate set fallback
-- ============================================================================

/-- C4 counterexample: on the two-record cycle opA, opB (each supersedes
the other, opA created earlier and listed first) the candidate set is
empty and the resolver returns opA — the first record of the input list,
not the overall latest-createdAt record opB — and its result type
carries no warning at all. -/
theorem c4_counterexample :
    candidates [opA, opB] = [] ∧
    getCurrentOperator [opA, opB] = some opA ∧
    recordTime opA < recordTime opB := by
  have hc : candidates [opA, opB] = [] := by decide
  refine ⟨hc, ?_, by decide⟩
  rw [getCurrentOperator_cons, hc, List.mergeSort_nil]
  rfl

/-- C4 amended: when the candidate tip set is empty the resolver falls
back to the first record of the (non-empty) input list and returns it
without failing; it surfaces no warning, as its result carries no
warning channel. -/
theorem c4_amended (a : OperatorRecord) (t : List OperatorRecord)
    (h : candidates (a :: t) = []) :
    getCurrentOperator (a :: t) = some a := by
  rw [getCurrentOperator_cons, h, List.mergeSort_nil]
  rfl

/-- Witness for the amended C4 on the concrete cycle. -/
theorem c4_amended_witness : getCurrentOperator [opA, opB] = some opA :=
  c4_amended opA [opB] (by decide)

-- ============================================================================
-- C10: totality of the resolver
-- ============================================================================

/-- C10: the resolver returns none exactly on the empty record list, and
whenever it returns a record that record is an element of the input,
whatever the shape of the supersedes links. -/
theorem c10_resolver_total (records : List OperatorRecord) :
    (getCurrentOperator records = none ↔ records = []) ∧
    (∀ r, getCurrentOperator records = some r → r ∈ records) := by
  cases records with
  | nil =>
    refine ⟨by simp [getCurrentOperator], ?_⟩
    intro r h
    simp [getCurrentOperator] at h
  | cons a t =>
    rw [getCurrentOperator_cons]
    constructor
    · constructor
      · intro h
        cases hlc : (candidates (a :: t)).mergeSort tipCmp with
        | nil => rw [hlc] at h; simp at h
        | cons r rest => rw [hlc] at h; simp at h
      · intro h
        exact absurd h (List.cons_ne_nil a t)
    · intro r h
      cases hlc : (candidates (a :: t)).mergeSort tipCmp with
      | nil =>
        rw [hlc] at h
        simp only [List.head?_nil] at h
        have : a = r := by simpa using h
        rw [← this]
        exact List.mem_cons_self a t
      | cons x rest =>
        rw [hlc] at h
        have hx : x = r := by simpa using h
        have hmem : x ∈ (candidates (a :: t)).mergeSort tipCmp := by
          rw [hlc]
          exact List.mem_cons_self x rest
        have : x ∈ candidates (a :: t) := List.mem_mergeSort.mp hmem
        exact hx ▸ List.mem_of_mem_filter this

/-- Witness for C10: empty input yields none, and on the singleton input
the returned record is a member. -/
theorem c10_resolver_total_witness :
    (getCurrentOperator [] = none ↔ ([] : List OperatorRecord) = []) ∧
    opSolo ∈ [opSolo] := by
  refine ⟨(c10_resolver_total []).1, (c10_resolver_total [opSolo]).2 opSolo ?_⟩
  rw [getCurrentOperator_cons,
    show candidates [opSolo] = [opSolo] from by decide,
    List.mergeSort_singleton]
  rfl

-- ============================================================================
-- Discovery pipeline lemmas
-- ============================================================================

lemma addAttestations_cons (d : Bool) (st : DiscoverState)
    (a : WitnessAttestation) (t : List WitnessAttestation) (c : Channel) :
    addAttestations d st (a :: t) c =
      addAttestations d
        (if !d || !(st.seenUris.contains (canonicalKey a)) then
          { st with
            seenUris := jsSetInsert st.seenUris (canonicalKey a)
            attestations := st.attestations ++ [a]
            sources := bumpSource st.sources c }
         else st)
        t c := rfl

lemma addAttestations_warnings (d : Bool) (st : DiscoverState)
    (as : List WitnessAttestation) (c : Channel) :
    (addAttestations d st as c).warnings = st.warnings := by
  induction as generalizing st with
  | nil => rfl
  | cons a t ih =>
    rw [addAttestations_cons, ih]
    split <;> rfl

lemma addAttestations_indexer_count (d : Bool) (st : DiscoverState)
    (as : List WitnessAttestation) (c : Channel) (hc : c ≠ Channel.indexer) :
    (addAttestations d st as c).sources.indexer = st.sources.indexer := by
  induction as generalizing st with
  | nil => rfl
  | cons a t ih =>
    rw [addAttestations_cons, ih]
    split
    · cases c with
      | social => rfl
      | registry => rfl
      | indexer => exact absurd rfl hc
    · rfl

lemma addAttestations_invariant (d : Bool) (c : Channel)
    (hc : c ≠ Channel.indexer) (as : List WitnessAttestation)
    (st : DiscoverState)
    (h : st.attestations.length = st.sources.social + st.sources.registry) :
    (addAttestations d st as c).attestations.length =
      (addAttestations d st as c).sources.social +
        (addAttestations d st as c).sources.registry := by
  induction as generalizing st with
  | nil => exact h
  | cons a t ih =>
    rw [addAttestations_cons]
    apply ih
    split
    · cases c with
      | social => simp [bumpSource]; omega
      | registry => simp [bumpSource]; omega
      | indexer => exact absurd rfl hc
    · exact h

lemma registryFold_warnings (env : Env) (t : String) (d : Bool)
    (rs : List String) (st : DiscoverState) :
    ((rs.foldl (registryStep env t d) st).warnings) = st.warnings := by
  induction rs generalizing st with
  | nil => rfl
  | cons r rest ih =>
    simp only [List.foldl_cons]
    rw [ih]
    unfold registryStep
    rw [addAttestations_warnings]

lemma registryFold_invariant (env : Env) (t : String) (d : Bool)
    (rs : List String) (st : DiscoverState)
    (h : st.attestations.length = st.sources.social + st.sources.registry) :
    ((rs.foldl (registryStep env t d) st).attestations.length =
      (rs.foldl (registryStep env t d) st).sources.social +
        (rs.foldl (registryStep env t d) st).sources.registry) := by
  induction rs generalizing st with
  | nil => exact h
  | cons r rest ih =>
    simp only [List.foldl_cons]
    apply ih
    exact addAttestations_invariant d Channel.registry (by simp) _ st h

lemma indexerFold_attestations (env : Env) (t : String)
    (ixs : List WitnessIndexer) (st : DiscoverState) :
    ((ixs.foldl (indexerStep env t) st).attestations) = st.attestations := by
  induction ixs generalizing st with
  | nil => rfl
  | cons ix rest ih =>
    simp only [List.foldl_cons]
    rw [ih]
    unfold indexerStep
    cases discoverThroughIndexer env ix t with
    | ok r => rfl
    | error e => rfl

lemma indexerFold_social (env : Env) (t : String)
    (ixs : List WitnessIndexer) (st : DiscoverState) :
    ((ixs.foldl (indexerStep env t) st).sources.social) = st.sources.social := by
  induction ixs generalizing st with
  | nil => rfl
  | cons ix rest ih =>
    simp only [List.foldl_cons]
    rw [ih]
    unfold indexerStep
    cases discoverThroughIndexer env ix t with
    | ok r => rfl
    | error e => rfl

lemma indexerFold_registry (env : Env) (t : String)
    (ixs : List WitnessIndexer) (st : DiscoverState) :
    ((ixs.foldl (indexerStep env t) st).sources.registry) = st.sources.registry := by
  induction ixs generalizing st with
  | nil => rfl
  | cons ix rest ih =>
    simp only [List.foldl_cons]
    rw [ih]
    unfold indexerStep
    cases discoverThroughIndexer env ix t with
    | ok r => rfl
    | error e => rfl

lemma indexerFold_warnings (env : Env) (t : String)
    (ixs : List WitnessIndexer) (st : DiscoverState) :
    ((ixs.foldl (indexerStep env t) st).warnings) =
      ixs.foldl
        (fun ws ix =>
          match env.queryIndexer ix.baseUrl t with
          | Except.ok _ => ws
          | Except.error _ => ws ++ ["Indexer " ++ ix.baseUrl ++ " unavailable"])
        st.warnings := by
  induction ixs generalizing st with
  | nil => rfl
  | cons ix rest ih =>
    simp only [List.foldl_cons]
    rw [ih]
    unfold indexerStep discoverThroughIndexer
    cases env.queryIndexer ix.baseUrl t with
    | ok r => rfl
    | error e => rfl

-- ============================================================================
-- Concrete discovery environments
-- ============================================================================

/-- The record envelope holding attestation attS in witness W1's
repository. -/
def attEnvelopeW1 : RecordEnvelope :=
  { uri := "at://did:plc:w1/at.witness.attestation/1", value := attS }

/-- C1 scenario environment: witness W1's repository yields exactly one
attestation about subject S; every other fetch target, including witness
W2, is unreachable. -/
def envC1 : Env :=
  { listAttestationRecords := fun repo =>
      if repo = "did:plc:w1" then Except.ok [attEnvelopeW1]
      else Except.error "unreachable"
    listRegistryRecords := fun _ => Except.error "unreachable"
    listPostRecords := fun _ => Except.error "unreachable"
    queryIndexer := fun _ _ => Except.error "unreachable" }

/-- C1 scenario options: known witnesses W1 and W2, defaults otherwise. -/
def optsC1 : DiscoveryOptions :=
  { knownWitnesses := some ["did:plc:w1", "did:plc:w2"] }

/-- C2 scenario environment: witness W1's repository is surfaced both
directly and through a registry listing W1, so the identical record is
observed via two distinct channels. -/
def envC2 : Env :=
  { listAttestationRecords := fun repo =>
      if repo = "did:plc:w1" then Except.ok [attEnvelopeW1]
      else Except.error "unreachable"
    listRegistryRecords := fun repo =>
      if repo = "did:plc:reg" then Except.ok [{ witnesses := some ["did:plc:w1"] }]
      else Except.error "unreachable"
    listPostRecords := fun _ => Except.error "unreachable"
    queryIndexer := fun _ _ => Except.error "unreachable" }

/-- C2 options with deduplication on. -/
def optsC2dedup : DiscoveryOptions :=
  { knownWitnesses := some ["did:plc:w1"]
    registries := some ["did:plc:reg"]
    deduplicate := true }

/-- C2 options with deduplication off. -/
def optsC2raw : DiscoveryOptions :=
  { knownWitnesses := some ["did:plc:w1"]
    registries := some ["did:plc:reg"]
    deduplicate := false }

/-- C5 environment: no reachable witness or registry, one indexer that
reports a single attestation about the subject. -/
def envC5 : Env :=
  { listAttestationRecords := fun _ => Except.error "unreachable"
    listRegistryRecords := fun _ => Except.error "unreachable"
    listPostRecords := fun _ => Except.error "unreachable"
    queryIndexer := fun _ _ => Except.ok
      { attestations :=
          [{ uri := "at://did:plc:w/at.witness.attestation/1"
             witnessDid := "did:plc:w"
             subjectDid := "did:plc:subject-s"
             claim := "helpful"
             createdAt := "2026-01-10T10:00:00Z" }] } }

/-- C5 options: a single configured indexer. -/
def optsC5 : DiscoveryOptions :=
  { indexers := some [{ baseUrl := "https://witness-index.example.com" }] }

-- ============================================================================
-- C1: failed witness fetches and the warnings list
-- ============================================================================

/-- C1 counterexample: in the concrete scenario (subject S, known
witnesses W1 and W2, W1 yielding one attestation, W2 unreachable) the
attestation list and the social counter are as the claim expects, but
the warnings list is empty — not of length one mentioning W2: social
fetch failures are only logged inside discoverThroughSocialGraph and
never reach the warnings list. -/
theorem c1_counterexample :
    (discoverAttestations envC1 "did:plc:subject-s" optsC1).attestations.length = 1 ∧
    (discoverAttestations envC1 "did:plc:subject-s" optsC1).sources.social = 1 ∧
    (discoverAttestations envC1 "did:plc:subject-s" optsC1).warnings = [] := by
  refine ⟨by decide, by decide, by decide⟩

/-- C1 amended: in the concrete scenario the attestation list has length
one, the social counter is one, and the warnings list is empty; in
general, removing a witness whose fetch fails does not change the social
discovery result (records from succeeding fetches are all present), and
the warnings of a discovery invocation consist exactly of one entry per
failed indexer query — failed witness fetches contribute none. -/
theorem c1_amended :
    ((discoverAttestations envC1 "did:plc:subject-s" optsC1).attestations.length = 1 ∧
      (discoverAttestations envC1 "did:plc:subject-s" optsC1).sources.social = 1 ∧
      (discoverAttestations envC1 "did:plc:subject-s" optsC1).warnings = []) ∧
    (∀ (env : Env) (t : String) (ws1 ws2 : List String) (w e : String),
      env.listAttestationRecords w = Except.error e →
      discoverThroughSocialGraph env t (ws1 ++ w :: ws2) =
        discoverThroughSocialGraph env t (ws1 ++ ws2)) ∧
    (∀ (env : Env) (t : String) (opts : DiscoveryOptions),
      (discoverAttestations env t opts).warnings =
        (opts.indexers.getD []).foldl
          (fun ws ix =>
            match env.queryIndexer ix.baseUrl t with
            | Except.ok _ => ws
            | Except.error _ => ws ++ ["Indexer " ++ ix.baseUrl ++ " unavailable"])
          []) := by
  refine ⟨⟨by decide, by decide, by decide⟩, ?_, ?_⟩
  · intro env t ws1 ws2 w e h
    unfold discoverThroughSocialGraph
    simp only [List.foldl_append, List.foldl_cons, h]
  · intro env t opts
    simp only [discoverAttestations]
    rw [indexerFold_warnings, registryFold_warnings]
    split <;> split
    · rw [addAttestations_warnings]
      rfl
    · rfl
    · rw [addAttestations_warnings]
      rfl
    · rfl

/-- Witness for the amended C1: dropping the unreachable witness W2 from
the witness list leaves the social discovery result unchanged. -/
theorem c1_amended_witness :
    discoverThroughSocialGraph envC1 "did:plc:subject-s"
        (["did:plc:w1"] ++ "did:plc:w2" :: []) =
      discoverThroughSocialGraph envC1 "did:plc:subject-s"
        (["did:plc:w1"] ++ []) :=
  c1_amended.2.1 envC1 "did:plc:subject-s" ["did:plc:w1"] [] "did:plc:w2"
    "unreachable" rfl

-- ============================================================================
-- C5: per-channel counters versus the attestation list
-- ============================================================================

/-- C5 counterexample: with one reachable indexer reporting one
attestation and no other source, the returned attestation list is empty
while the counters sum to one — the indexer counter counts records that
are never added to the attestation list, so the claimed equality fails. -/
theorem c5_counterexample :
    (discoverAttestations envC5 "did:plc:subject-s" optsC5).attestations.length = 0 ∧
    sourceSum (discoverAttestations envC5 "did:plc:subject-s" optsC5).sources = 1 := by
  refine ⟨by decide, by decide⟩

/-- C5 amended: the length of the attestation list equals the social
counter plus the registry counter alone; the indexer counter counts
indexer-reported records that the source never converts into attestation
entries. -/
theorem c5_amended (env : Env) (t : String) (opts : DiscoveryOptions) :
    (discoverAttestations env t opts).attestations.length =
      (discoverAttestations env t opts).sources.social +
        (discoverAttestations env t opts).sources.registry := by
  simp only [discoverAttestations]
  rw [indexerFold_attestations, indexerFold_social, indexerFold_registry]
  apply registryFold_invariant
  split <;> split
  · exact addAttestations_invariant opts.deduplicate Channel.social (by decide) _
      initialDiscoverState rfl
  · rfl
  · exact addAttestations_invariant opts.deduplicate Channel.social (by decide) _
      initialDiscoverState rfl
  · rfl

-- ============================================================================
-- C2: idempotent deduplication across channels
-- ============================================================================

/-- C2: merging one record per channel under two distinct channels, with
the same canonical key, keeps exactly one entry with that key and
credits the counters once in total when deduplication is on, and keeps
and counts both copies when it is off; the same holds through the full
discovery pipeline on the concrete environment where a registry and the
social channel surface the identical record. -/
theorem c2_dedup_idempotent :
    (∀ (c₁ c₂ : Channel) (a b : WitnessAttestation), c₁ ≠ c₂ →
      canonicalKey a = canonicalKey b →
      (((addAttestations true (addAttestations true initialDiscoverState [a] c₁)
            [b] c₂).attestations.countP
              (fun x => canonicalKey x == canonicalKey a) = 1 ∧
        sourceSum (addAttestations true
          (addAttestations true initialDiscoverState [a] c₁) [b] c₂).sources = 1) ∧
       ((addAttestations false (addAttestations false initialDiscoverState [a] c₁)
            [b] c₂).attestations.countP
              (fun x => canonicalKey x == canonicalKey a) = 2 ∧
        sourceSum (addAttestations false
          (addAttestations false initialDiscoverState [a] c₁) [b] c₂).sources = 2))) ∧
    ((discoverAttestations envC2 "did:plc:subject-s" optsC2dedup).attestations.length = 1 ∧
      sourceSum (discoverAttestations envC2 "did:plc:subject-s" optsC2dedup).sources = 1 ∧
      (discoverAttestations envC2 "did:plc:subject-s" optsC2raw).attestations.length = 2 ∧
      sourceSum (discoverAttestations envC2 "did:plc:subject-s" optsC2raw).sources = 2) := by
  constructor
  · intro c₁ c₂ a b hcc hkey
    have h1 : addAttestations true initialDiscoverState [a] c₁ =
        { attestations := [a]
          sources := bumpSource { social := 0, registry := 0, indexer := 0 } c₁
          warnings := []
          seenUris := [canonicalKey a] } := by
      simp [addAttestations, initialDiscoverState, jsSetInsert]
    have h2 : addAttestations true
        ({ attestations := [a]
           sources := bumpSource { social := 0, registry := 0, indexer := 0 } c₁
           warnings := []
           seenUris := [canonicalKey a] } : DiscoverState) [b] c₂ =
        { attestations := [a]
          sources := bumpSource { social := 0, registry := 0, indexer := 0 } c₁
          warnings := []
          seenUris := [canonicalKey a] } := by
      simp [addAttestations, ← hkey]
    have h3 : addAttestations false initialDiscoverState [a] c₁ =
        { attestations := [a]
          sources := bumpSource { social := 0, registry := 0, indexer := 0 } c₁
          warnings := []
          seenUris := [canonicalKey a] } := by
      simp [addAttestations, initialDiscoverState, jsSetInsert]
    have h4 : addAttestations false
        ({ attestations := [a]
           sources := bumpSource { social := 0, registry := 0, indexer := 0 } c₁
           warnings := []
           seenUris := [canonicalKey a] } : DiscoverState) [b] c₂ =
        { attestations := [a, b]
          sources := bumpSource
            (bumpSource { social := 0, registry := 0, indexer := 0 } c₁) c₂
          warnings := []
          seenUris := [canonicalKey a] } := by
      simp [addAttestations, jsSetInsert, ← hkey]
    refine ⟨⟨?_, ?_⟩, ?_, ?_⟩
    · rw [h1, h2]
      simp [List.countP_cons]
    · rw [h1, h2]
      cases c₁ <;> rfl
    · rw [h3, h4]
      simp [List.countP_cons, ← hkey]
    · rw [h3, h4]
      cases c₁ <;> cases c₂ <;> rfl
  · refine ⟨by decide, by decide, by decide, by decide⟩

/-- Witness for C2 with the social and registry channels and the
concrete record attS observed twice. -/
theorem c2_dedup_idempotent_witness :
    (((addAttestations true
          (addAttestations true initialDiscoverState [attS] Channel.social)
          [attS] Channel.registry).attestations.countP
            (fun x => canonicalKey x == canonicalKey attS) = 1 ∧
      sourceSum (addAttestations true
        (addAttestations true initialDiscoverState [attS] Channel.social)
        [attS] Channel.registry).sources = 1) ∧
     ((addAttestations false
          (addAttestations false initialDiscoverState [attS] Channel.social)
          [attS] Channel.registry).attestations.countP
            (fun x => canonicalKey x == canonicalKey attS) = 2 ∧
      sourceSum (addAttestations false
        (addAttestations false initialDiscoverState [attS] Channel.social)
        [attS] Channel.registry).sources = 2)) :=
  c2_dedup_idempotent.1 Channel.social Channel.registry attS attS
    (by decide) rfl
